import Mathlib

/-!
# VTIL-Sandbox: a shallow embedding of `main.cpp`

The program is a two-pane viewer.  The embedding keeps the process-wide globals of
`main.cpp` as fields of explicit records and threads them through every routine:

* `RoutineStore` holds `file_name` and `routine` (the "current VTIL routine" globals);
* `Pane` is one `Overlay` together with its `View` (geometry, navigation target,
  number of reloads, identity of the view);
* `State` is what the event handlers and the menu callables see.

Everything the program obtains from outside (the current directory, the file dialogue,
the file system, `vtil::deserialize`, the instruction table, the `vtil::js` conversions,
the window size) is a field of `Env`.

Strings are lists of code units.  Conversions between `std::wstring`, the toolkit string
and script strings are taken to preserve the code units.
-/

namespace VTILSandbox

/-! ## Strings -/

/-- A `std::wstring` (or `std::string`): the list of its code units. -/
abbrev WString := List Nat

/-- The code units of a literal. -/
def wstr (s : String) : WString := s.toList.map Char.toNat

/-- The value `std::wstring::npos`, that is `size_t(-1)` on a 64-bit target. -/
def npos : Nat := 2 ^ 64 - 1

/-- Addition of two `size_t` values. -/
def size_t_add (a b : Nat) : Nat := (a + b) % 2 ^ 64

/-- Index of the last occurrence of `c` in the string, if there is one. -/
def rfind (c : Nat) : WString → Option Nat
  | [] => none
  | x :: xs =>
    match rfind c xs with
    | some i => some (i + 1)
    | none => if x = c then some 0 else none

/-- The call `s.find_last_of( c )`: the index of the last `c`, or `npos`. -/
def find_last_of (s : WString) (c : Nat) : Nat :=
  match rfind c s with
  | some i => i
  | none => npos

/-- The call `s.substr( pos )`; `none` stands for the `std::out_of_range` it throws
when `pos > s.size()`. -/
def substr (s : WString) (pos : Nat) : Option WString :=
  if pos ≤ s.length then some (s.drop pos) else none

/-- The call `s.starts_with( p )`. -/
def starts_with : WString → WString → Bool
  | _, [] => true
  | [], _ :: _ => false
  | x :: xs, y :: ys => x == y && starts_with xs ys

/-- Code unit of the backslash. -/
def backslash : Nat := 92

/-- Code unit of the forward slash. -/
def slash : Nat := 47

/-! ## The routine (externally defined data, kept abstract) -/

namespace vtil

/-- A basic block: its identifier and its (uninterpreted) contents. -/
structure basic_block where
  entry_vip : Nat
  stream : List Nat
  deriving DecidableEq, Repr

/-- A routine: the entry block and the map `explored_blocks` from block identifier to
block, listed in iteration order. -/
structure routine where
  entry_point : basic_block
  explored_blocks : List (Nat × basic_block)
  deriving DecidableEq, Repr

/-- One row of `vtil::instruction_list`. -/
structure instruction_desc where
  name : WString
  operand_count : Nat
  deriving DecidableEq, Repr

end vtil

/-! ## Script values -/

/-- The five native callables installed in the menu context. -/
inductive MenuCallback where
  | run
  | load
  | reload
  | get_view
  | set_view
  deriving DecidableEq, Repr

/-- A script value. -/
inductive JSValue where
  | undefined
  | boolean (b : Bool)
  | number (n : Nat)
  | string (s : WString)
  | callback (f : MenuCallback)
  | block (b : vtil.basic_block)
  | instruction (d : vtil.instruction_desc)
  | object (props : List (String × JSValue))

/-- A script object: its properties in insertion order, one entry per property name. -/
abbrev JSObject := List (String × JSValue)

/-- The method `IsString()`. -/
def JSValue.IsString : JSValue → Bool
  | .string _ => true
  | _ => false

/-- The assignment `o[ k ] = v`: overwrite the property when present, add it otherwise. -/
def JSObject.set : JSObject → String → JSValue → JSObject
  | [], k, v => [(k, v)]
  | (k0, v0) :: rest, k, v =>
    if k0 = k then (k, v) :: rest else (k0, v0) :: JSObject.set rest k v

/-- Reading the property `o[ k ]`. -/
def JSObject.get : JSObject → String → Option JSValue
  | [], _ => none
  | (k0, v0) :: rest, k => if k0 = k then some v0 else JSObject.get rest k

/-- The property names of an object. -/
def JSObject.keys (o : JSObject) : List String := o.map Prod.fst

/-! ## Program state -/

/-- The globals `file_name` and `routine`. -/
structure RoutineStore where
  file_name : WString
  routine : Option vtil.routine
  deriving DecidableEq, Repr

/-- An `Overlay` with its `View`. -/
structure Pane where
  view_ptr : Nat
  x : Int
  y : Int
  width : Nat
  height : Nat
  url : WString
  reloads : Nat
  deriving DecidableEq, Repr

/-- The method `Overlay::MoveTo`. -/
def Pane.MoveTo (p : Pane) (x y : Int) : Pane := { p with x := x, y := y }

/-- The method `Overlay::Resize`. -/
def Pane.Resize (p : Pane) (width height : Nat) : Pane :=
  { p with width := width, height := height }

/-- The method `View::LoadURL`: the pane navigates to the given target. -/
def Pane.LoadURL (p : Pane) (target : WString) : Pane := { p with url := target }

/-- The method `View::Reload`. -/
def Pane.Reload (p : Pane) : Pane := { p with reloads := p.reloads + 1 }

/-- Calls into the operating system and the toolkit that leave a mark outside the panes. -/
inductive Effect where
  | file_dialogue (filter : WString)
  | message_box
  | app_create
  | window_create
  | overlay_create (view_ptr : Nat)
  | set_listeners
  | js_eval (script : List Nat)
  | app_run
  deriving DecidableEq, Repr

/-- What the listeners and the menu callables work on. -/
structure State where
  store : RoutineStore
  overlay_menu : Pane
  overlay_view : Pane
  global_object : JSObject
  trace : List Effect

/-- The outside world. -/
structure Env where
  /-- Result of `GetCurrentDirectoryW` when the process starts. -/
  current_directory : WString
  /-- The modal dialogue `GetOpenFileNameW`: the chosen path, or `none` when the user
  cancels or the call fails. -/
  GetOpenFileNameW : WString → Option WString
  /-- Opening a `std::ifstream`: the bytes of the file, or `none` for a stream in the
  failed state. -/
  ifstream : WString → Option (List Nat)
  /-- Opening a `std::ifstream` in text mode and reading it to the end: the chars the
  stream delivers, or `none` for a stream in the failed state. -/
  read_text : WString → Option (List Nat)
  /-- The call `vtil::deserialize( fs, output )`: the routine it builds, or `none` when it
  throws a `std::exception`. -/
  deserialize : Option (List Nat) → Option vtil.routine
  /-- The table `vtil::instruction_list`. -/
  instruction_list : List vtil.instruction_desc
  /-- The conversion `vtil::js::as_js` on a block identifier. -/
  vip_as_js : Nat → JSValue
  /-- The conversion `vtil::js::as_js` on a block. -/
  block_as_js : vtil.basic_block → JSValue
  /-- The conversion `vtil::js::as_js` on an instruction descriptor. -/
  instruction_as_js : vtil.instruction_desc → JSValue
  /-- The property name under which `JSObject::operator[]` files a script value. -/
  property_name : JSValue → String
  /-- What `Overlay::Create` hands out as the menu pane's view. -/
  menu_view_ptr : Nat
  /-- What `Overlay::Create` hands out as the view pane's view. -/
  view_view_ptr : Nat
  /-- The value `window->width()` after the window is created. -/
  window_width : Nat
  /-- The value `window->height()` after the window is created. -/
  window_height : Nat

/-! ## Constants of `main.cpp` -/

def default_menu_path : WString := wstr "menu.html"

def default_view_path : WString := wstr "text.html"

def menu_width : Nat := 200

/-- The initialiser of `assets_path`: the current directory with every backslash turned
into a forward slash, between the scheme and the assets folder. -/
def assets_path (env : Env) : WString :=
  wstr "file:///" ++ env.current_directory.map (fun c => if c = backslash then slash else c)
    ++ wstr "/assets/"

/-- The filter handed to the dialogue for routine files. -/
def vtil_filter : WString := wstr "VTIL Intermediate Files" ++ [0] ++ wstr "*.vtil" ++ [0]

/-- The filter handed to the dialogue for script files. -/
def js_filter : WString := wstr "VTIL Scripts" ++ [0] ++ wstr "*.js" ++ [0]

/-! ## `pop_file_dialogue` and `load_routine` -/

/-- The function `pop_file_dialogue`: shows the dialogue (recorded in the trace) and
returns the buffer when the call succeeds, the empty string otherwise. -/
def pop_file_dialogue (env : Env) (filter : WString) (trace : List Effect) :
    WString × List Effect :=
  match env.GetOpenFileNameW filter with
  | some buffer => (buffer, trace ++ [Effect.file_dialogue filter])
  | none => ([], trace ++ [Effect.file_dialogue filter])

/-- The function `load_routine`.  The whole body sits in a `try` block whose handler
returns `false`; the routine is assigned before the display name is computed, so a throw
from `substr` would be caught after the routine has already been replaced. -/
def load_routine (env : Env) (store : RoutineStore) (path : WString) :
    Bool × RoutineStore :=
  match env.deserialize (env.ifstream path) with
  | none => (false, store)
  | some output =>
    let store1 : RoutineStore := { store with routine := some output }
    match substr path (size_t_add (find_last_of path backslash) 1) with
    | none => (false, store1)
    | some name => (true, { store1 with file_name := name })

/-! ## The menu API -/

/-- Modelled from the spec: the macro `fassert` (its header is not part of this file set).
A failed assertion is a fatal contract violation: the process aborts on the spot, which
`Except.error` records together with the state reached so far; otherwise execution goes
on. -/
def fassert (st : State) (cond : Bool) : Except State Unit :=
  if cond then Except.ok () else Except.error st

/-- The callable `run`: pops the dialogue for scripts, gives up when the chosen file cannot
be opened, otherwise reads it to the end and evaluates it in the view context.  The text
reaches `JSEval` as `str.data()`, a C string, so the script ends at its first NUL. -/
def menu_run (env : Env) (st : State) : JSValue × State :=
  let picked := pop_file_dialogue env js_filter st.trace
  match env.read_text picked.1 with
  | none => (JSValue.boolean false, { st with trace := picked.2 })
  | some str =>
    (JSValue.boolean true,
      { st with trace := picked.2 ++ [Effect.js_eval (str.takeWhile (fun c => c ≠ 0))] })

/-- The callable `load`: pops the dialogue for routine files and hands the result to
`load_routine`; only when that reports success is the view pane reloaded. -/
def menu_load (env : Env) (st : State) : JSValue × State :=
  let picked := pop_file_dialogue env vtil_filter st.trace
  let loaded := load_routine env st.store picked.1
  if !loaded.1 then
    (JSValue.boolean false, { st with store := loaded.2, trace := picked.2 })
  else
    (JSValue.boolean true,
      { st with store := loaded.2, trace := picked.2, overlay_view := st.overlay_view.Reload })

/-- The callable `reload`. -/
def menu_reload (st : State) : State :=
  { st with overlay_menu := st.overlay_menu.Reload, overlay_view := st.overlay_view.Reload }

/-- The callable `get_view`: the view pane's URL, without the leading `assets_path` when it
has one.  `none` stands for an exception leaving the callable. -/
def get_view (env : Env) (st : State) : Option JSValue :=
  let path := st.overlay_view.url
  if starts_with path (assets_path env) then
    (substr path (assets_path env).length).map JSValue.string
  else
    some (JSValue.string path)

/-- The condition asserted by `set_view`: `args.size() >= 1 && args.data()[ 0 ].IsString()`;
the second operand is only looked at when the first holds. -/
def set_view_check (args : List JSValue) : Bool :=
  decide (args.length ≥ 1) &&
    (match args with
     | [] => false
     | a :: _ => a.IsString)

/-- The callable `set_view`: asserts its condition, then navigates the view pane to
`assets_path` followed by the text of the first argument.  `Except.error` is the abort. -/
def set_view (env : Env) (st : State) (args : List JSValue) : Except State State :=
  match fassert st (set_view_check args), args with
  | Except.error aborted, _ => Except.error aborted
  | Except.ok _, JSValue.string s :: _ =>
    Except.ok { st with overlay_view := st.overlay_view.LoadURL (assets_path env ++ s) }
  | Except.ok _, _ => Except.ok st

/-- The function `export_menu_api`. -/
def export_menu_api (vtil_object : JSObject) : JSObject :=
  ((((vtil_object.set "run" (JSValue.callback MenuCallback.run)).set
    "load" (JSValue.callback MenuCallback.load)).set
    "reload" (JSValue.callback MenuCallback.reload)).set
    "get_view" (JSValue.callback MenuCallback.get_view)).set
    "set_view" (JSValue.callback MenuCallback.set_view)

/-! ## The view API -/

/-- The loop filling `list_out`. -/
def export_instruction_list (env : Env) : JSObject :=
  env.instruction_list.foldl
    (fun list_out instruction =>
      list_out.set (env.property_name (JSValue.string instruction.name))
        (env.instruction_as_js instruction))
    []

/-- The loop filling `block_map`. -/
def export_block_map (env : Env) (r : vtil.routine) : JSObject :=
  r.explored_blocks.foldl
    (fun block_map pair =>
      block_map.set (env.property_name (env.vip_as_js pair.1)) (env.block_as_js pair.2))
    []

/-- The function `export_view_api`, for the resident routine `r`. -/
def export_view_api (env : Env) (r : vtil.routine) (vtil_object : JSObject) : JSObject :=
  ((vtil_object.set "ins" (JSValue.object (export_instruction_list env))).set
    "blocks" (JSValue.object (export_block_map env r))).set
    "entry_point" (env.vip_as_js r.entry_point.entry_vip)

/-! ## The listeners set up by `WinMain` -/

/-- Subtraction of two `uint32_t` values, wrapping around below zero. -/
def u32_sub (a b : Nat) : Nat := (a + 2 ^ 32 - b) % 2 ^ 32

/-- The width handed to the view pane by `on_resize`. -/
def view_width (width : Nat) : Nat :=
  if width ≤ menu_width then 1 else u32_sub width menu_width

/-- The listener `on_resize`. -/
def on_resize (st : State) (width height : Nat) : State :=
  { st with
    overlay_menu := (st.overlay_menu.MoveTo 0 0).Resize menu_width height,
    overlay_view := (st.overlay_view.MoveTo menu_width 0).Resize (view_width width) height }

/-- The object built by `on_change_url` for the view that fired; `none` when the view
branch runs with no routine resident (a null dereference). -/
def build_vtil_object (env : Env) (st : State) (view : Nat) : Option JSObject :=
  let vtil_object := JSObject.set [] "file_name" (JSValue.string st.store.file_name)
  if view = st.overlay_menu.view_ptr then
    some (export_menu_api vtil_object)
  else if view = st.overlay_view.view_ptr then
    st.store.routine.map (fun r => export_view_api env r vtil_object)
  else
    some vtil_object

/-- The listener `on_change_url`: builds the object and installs it as `vtil` in the
global object of the current scripting context. -/
def on_change_url (env : Env) (st : State) (view : Nat) : Option State :=
  (build_vtil_object env st view).map
    (fun vtil_object =>
      { st with global_object := st.global_object.set "vtil" (JSValue.object vtil_object) })

/-! ## `WinMain` -/

/-- Widening of one `char` of the command line to `wchar_t` (plain `char` is signed and
`wchar_t` is an unsigned 16-bit type on this target). -/
def widen (c : Nat) : Nat := if c < 128 then c else c + 65280

/-- The globals before `WinMain` runs. -/
def initial_store : RoutineStore := { file_name := [], routine := none }

/-- A pane as `Overlay::Create( window, 1, 1, 0, 0 )` makes it. -/
def Overlay_Create (view_ptr : Nat) : Pane :=
  { view_ptr := view_ptr, x := 0, y := 0, width := 1, height := 1, url := [], reloads := 0 }

/-- What a run of `WinMain` leaves behind: the exit code, and the state when the window
and the panes were created. -/
structure WinMainResult where
  exit_code : Int
  store : RoutineStore
  trace : List Effect
  target_file : WString
  state : Option State

/-- The function `WinMain`, given the bytes of `lpCmdLine`.  The steps that only dress the
window (title, icon) are left out; `event_listener.OnResize` is taken to forward to the
`on_resize` set just before; the listeners themselves run later, from `app->Run()`, and
are the functions above. -/
def WinMain (env : Env) (lpCmdLine : List Nat) : WinMainResult :=
  let target_file := lpCmdLine.map widen
  let picked :=
    if target_file.isEmpty then pop_file_dialogue env vtil_filter [] else (target_file, [])
  let loaded := load_routine env initial_store picked.1
  if !loaded.1 then
    { exit_code := -2, store := loaded.2, trace := picked.2 ++ [Effect.message_box],
      target_file := picked.1, state := none }
  else
    let created : State :=
      { store := loaded.2,
        overlay_menu := Overlay_Create env.menu_view_ptr,
        overlay_view := Overlay_Create env.view_view_ptr,
        global_object := [],
        trace := picked.2 ++ [Effect.app_create, Effect.window_create,
          Effect.overlay_create env.menu_view_ptr, Effect.overlay_create env.view_view_ptr] }
    let resized := on_resize created env.window_width env.window_height
    let listening : State := { resized with trace := resized.trace ++ [Effect.set_listeners] }
    let navigated : State :=
      { listening with
        overlay_menu := listening.overlay_menu.LoadURL (assets_path env ++ default_menu_path),
        overlay_view := listening.overlay_view.LoadURL (assets_path env ++ default_view_path) }
    let final : State := { navigated with trace := navigated.trace ++ [Effect.app_run] }
    { exit_code := 0, store := final.store, trace := final.trace,
      target_file := picked.1, state := some final }

/-! ## Scripted use of the menu API -/

/-- A menu script running `vtil.set_view( vtil.get_view() )`: the value returned by
`get_view` is handed straight to `set_view` as its only argument.  The outer `none` is an
exception leaving `get_view`. -/
def set_view_of_get_view (env : Env) (st : State) : Option (Except State State) :=
  (get_view env st).map (fun v => set_view env st [v])

/-! ## Concrete data used to exercise the definitions -/

/-- A block with identifier `0x1000`. -/
def example_block : vtil.basic_block := { entry_vip := 0x1000, stream := [1, 2, 3] }

/-- The routine of the scenario: entry `0x1000`, one block `0x1000`. -/
def example_routine : vtil.routine :=
  { entry_point := example_block, explored_blocks := [(0x1000, example_block)] }

/-- Another routine, resident before a load is attempted. -/
def resident_routine : vtil.routine :=
  { entry_point := { entry_vip := 0x2000, stream := [7] },
    explored_blocks := [(0x2000, { entry_vip := 0x2000, stream := [7] }),
                        (0x2040, { entry_vip := 0x2040, stream := [8, 9] })] }

/-- Property names of a script engine: decimal digits for a number, the text for a
string. -/
def example_property_name : JSValue → String
  | JSValue.number n => toString n
  | JSValue.string s => String.mk (s.map Char.ofNat)
  | _ => ""

/-- The path `C:\work\r.vtil`. -/
def backslash_path : WString :=
  wstr "C:" ++ [backslash] ++ wstr "work" ++ [backslash] ++ wstr "r.vtil"

/-- The path `C:/work/r.vtil`. -/
def slash_path : WString := wstr "C:/work/r.vtil"

/-- A world in which the user cancels every dialogue, the file `r.vtil` exists under both
spellings of its path and holds `example_routine`, and nothing else can be opened. -/
def example_env : Env :=
  { current_directory := wstr "C:" ++ [backslash] ++ wstr "sandbox",
    GetOpenFileNameW := fun _ => none,
    ifstream := fun p => if p = backslash_path ∨ p = slash_path then some [86, 84, 73, 76] else none,
    read_text := fun _ => none,
    deserialize := fun fs =>
      match fs with
      | some _ => some example_routine
      | none => none,
    instruction_list := [{ name := wstr "mov", operand_count := 2 },
                         { name := wstr "nop", operand_count := 0 }],
    vip_as_js := JSValue.number,
    block_as_js := JSValue.block,
    instruction_as_js := JSValue.instruction,
    property_name := example_property_name,
    menu_view_ptr := 1,
    view_view_ptr := 2,
    window_width := 1152,
    window_height := 648 }

/-- A store holding `resident_routine` under the name `old.vtil`. -/
def example_store : RoutineStore :=
  { file_name := wstr "old.vtil", routine := some resident_routine }

/-- A running application showing `text.html` in the view pane. -/
def example_state : State :=
  { store := example_store,
    overlay_menu := { view_ptr := 1, x := 0, y := 0, width := 200, height := 648,
                      url := assets_path example_env ++ default_menu_path, reloads := 0 },
    overlay_view := { view_ptr := 2, x := 200, y := 0, width := 952, height := 648,
                      url := assets_path example_env ++ default_view_path, reloads := 0 },
    global_object := [],
    trace := [] }

/-- The same application after a script sent the view pane to a page outside the assets
folder. -/
def wandering_state : State :=
  { example_state with
    overlay_view := { example_state.overlay_view with url := wstr "https://example.org/" } }

theorem rfind_none_not_mem (c : Nat) (s : WString) (h : rfind c s = none) : c ∉ s := by
  induction s with
  | nil => simp
  | cons x xs ih =>
    unfold rfind at h
    cases hxs : rfind c xs with
    | some i => simp [hxs] at h
    | none =>
      simp only [hxs] at h
      by_cases hx : x = c
      · simp [hx] at h
      · intro hmem
        rcases List.mem_cons.mp hmem with h1 | h1
        · exact hx h1.symm
        · exact ih hxs h1

theorem rfind_some_split (c : Nat) (s : WString) (i : Nat) (h : rfind c s = some i) :
    ∃ pre post, s = pre ++ c :: post ∧ pre.length = i ∧ c ∉ post := by
  induction s generalizing i with
  | nil => simp [rfind] at h
  | cons x xs ih =>
    unfold rfind at h
    cases hxs : rfind c xs with
    | some j =>
      simp only [hxs, Option.some.injEq] at h
      obtain ⟨pre, post, hs, hlen, hpost⟩ := ih j hxs
      refine ⟨x :: pre, post, ?_, ?_, hpost⟩
      · rw [hs]; rfl
      · simp [hlen, h]
    | none =>
      simp only [hxs] at h
      by_cases hx : x = c
      · simp only [hx, if_true, Option.some.injEq] at h
        refine ⟨[], xs, ?_, ?_, rfind_none_not_mem c xs hxs⟩
        · simp [hx]
        · simp [h]
      · simp [hx] at h

theorem size_t_add_npos_one : size_t_add npos 1 = 0 := by
  decide

theorem size_t_add_one_le (i : Nat) : size_t_add i 1 ≤ i + 1 := by
  unfold size_t_add
  exact Nat.mod_le _ _

/-- The argument `load_routine` gives to `substr` never lies beyond the end of the path. -/
theorem name_start_le_length (path : WString) :
    size_t_add (find_last_of path backslash) 1 ≤ path.length := by
  unfold find_last_of
  cases h : rfind backslash path with
  | none => simp [size_t_add_npos_one]
  | some i =>
    obtain ⟨pre, post, hs, hlen, _⟩ := rfind_some_split backslash path i h
    have h1 : i + 1 ≤ path.length := by
      rw [hs]; simp [hlen]
    exact le_trans (size_t_add_one_le i) h1

/-- The function `load_routine` in closed form: the `substr` call cannot throw, so the
routine and the display name are always replaced together. -/
theorem load_routine_eq (env : Env) (store : RoutineStore) (path : WString) :
    load_routine env store path =
      match env.deserialize (env.ifstream path) with
      | none => (false, store)
      | some output =>
        (true, { file_name := path.drop (size_t_add (find_last_of path backslash) 1),
                 routine := some output }) := by
  unfold load_routine
  cases env.deserialize (env.ifstream path) with
  | none => rfl
  | some output => simp [substr, name_start_le_length]

theorem load_routine_fst (env : Env) (store : RoutineStore) (path : WString) :
    (load_routine env store path).1 = (env.deserialize (env.ifstream path)).isSome := by
  rw [load_routine_eq]
  cases env.deserialize (env.ifstream path) <;> rfl

/-! ## The loader -/

/-- Claim C2, as stated, fails: the file `C:/work/r.vtil` deserializes, the load returns
`true`, and the display name is the whole path, forward slashes included. -/
theorem load_routine_name_keeps_forward_slash :
    example_env.deserialize (example_env.ifstream slash_path) = some example_routine ∧
    (load_routine example_env example_store slash_path).1 = true ∧
    (load_routine example_env example_store slash_path).2.file_name = slash_path ∧
    slash ∈ (load_routine example_env example_store slash_path).2.file_name := by
  decide

/-- Claim C2, amended.  When deserialization of the file at `path` succeeds with routine
`r`, the function `load_routine` returns `true` and the store afterwards holds exactly `r`
together with the part of `path` after its last backslash (all of `path` when it has
none): `path` splits as `dir ++ name` where `name` has no backslash and `dir` is empty or
ends in a backslash. -/
theorem load_routine_success_swaps_both (env : Env) (store : RoutineStore) (path : WString)
    (r : vtil.routine) (hlen : path.length < 2 ^ 64)
    (hok : env.deserialize (env.ifstream path) = some r) :
    ∃ dir name, path = dir ++ name ∧ backslash ∉ name ∧
      (dir = [] ∨ dir.getLast? = some backslash) ∧
      load_routine env store path = (true, { file_name := name, routine := some r }) := by
  rw [load_routine_eq, hok]
  unfold find_last_of
  cases h : rfind backslash path with
  | none =>
    refine ⟨[], path, rfl, rfind_none_not_mem backslash path h, Or.inl rfl, ?_⟩
    simp [size_t_add_npos_one]
  | some i =>
    obtain ⟨pre, post, hs, hpre, hpost⟩ := rfind_some_split backslash path i h
    have hi : i + 1 ≤ path.length := by
      rw [hs]; simp [hpre]
    have hadd : size_t_add i 1 = i + 1 := by
      unfold size_t_add
      exact Nat.mod_eq_of_lt (by omega)
    refine ⟨pre ++ [backslash], post, by rw [hs]; simp, hpost, Or.inr (by simp), ?_⟩
    simp only [hadd]
    have hdrop : List.drop (i + 1) path = post := by
      rw [hs, ← hpre]
      have : pre ++ backslash :: post = (pre ++ [backslash]) ++ post := by simp
      rw [this]
      have hl : (pre ++ [backslash]).length = pre.length + 1 := by simp
      rw [← hl, List.drop_left]
    rw [hdrop]

/-- The path `C:\work\r.vtil` loads as `r.vtil`. -/
theorem load_routine_success_swaps_both_witness :
    (∃ dir name, backslash_path = dir ++ name ∧ backslash ∉ name ∧
      (dir = [] ∨ dir.getLast? = some backslash) ∧
      load_routine example_env example_store backslash_path =
        (true, { file_name := name, routine := some example_routine })) ∧
    load_routine example_env example_store backslash_path =
      (true, { file_name := wstr "r.vtil", routine := some example_routine }) :=
  ⟨load_routine_success_swaps_both example_env example_store backslash_path example_routine
    (by decide) (by decide), by decide⟩

/-! ## The resize listener -/

theorem u32_sub_eq (a b : Nat) (hb : b ≤ a) (ha : a < 2 ^ 32) : u32_sub a b = a - b := by
  unfold u32_sub
  have h1 : a + 2 ^ 32 - b = (a - b) + 2 ^ 32 := by omega
  rw [h1, Nat.add_mod_right]
  exact Nat.mod_eq_of_lt (by omega)

theorem view_width_small (w : Nat) (h : w ≤ menu_width) : view_width w = 1 := by
  unfold view_width
  simp [h]

theorem view_width_large (w : Nat) (h : menu_width < w) (hw : w < 2 ^ 32) :
    view_width w = w - menu_width := by
  unfold view_width
  rw [if_neg (by omega)]
  exact u32_sub_eq w menu_width (le_of_lt h) hw

/-- Claim C3, as stated, fails at a window exactly `menu_width` wide: the claim asks for a
view pane of width `200 - 200 = 0`, the listener gives it width 1. -/
theorem on_resize_at_menu_width_gives_one :
    menu_width ≤ 200 ∧
    (on_resize example_state 200 600).overlay_view.width = 1 ∧
    ((on_resize example_state 200 600).overlay_view.width : Int) ≠ (200 : Int) - menu_width := by
  decide

/-- Claim C3, amended.  For every 32-bit window width `w` and every height `h`, after
`on_resize` the menu pane is `menu_width` (200) wide, the view pane is `w - menu_width`
wide when `w > menu_width` and 1 wide when `w ≤ menu_width`, and both panes are `h`
high. -/
theorem on_resize_pane_sizes (st : State) (w h : Nat) (hw : w < 2 ^ 32) :
    (on_resize st w h).overlay_menu.width = menu_width ∧
    menu_width = 200 ∧
    (menu_width < w →
      ((on_resize st w h).overlay_view.width : Int) = (w : Int) - (menu_width : Int)) ∧
    (w ≤ menu_width → (on_resize st w h).overlay_view.width = 1) ∧
    (on_resize st w h).overlay_menu.height = h ∧
    (on_resize st w h).overlay_view.height = h := by
  refine ⟨rfl, rfl, ?_, ?_, rfl, rfl⟩
  · intro hlt
    show ((view_width w : Nat) : Int) = _
    rw [view_width_large w hlt hw]
    omega
  · intro hle
    show view_width w = 1
    exact view_width_small w hle

/-- A window 1152 by 648: the view pane gets 952 by 648, the menu pane 200 by 648. -/
theorem on_resize_pane_sizes_witness :
    (1152 : Nat) < 2 ^ 32 ∧
    (on_resize example_state 1152 648).overlay_menu.width = menu_width ∧
    menu_width = 200 ∧
    (menu_width < 1152 →
      ((on_resize example_state 1152 648).overlay_view.width : Int)
        = ((1152 : Nat) : Int) - (menu_width : Int)) ∧
    (1152 ≤ menu_width → (on_resize example_state 1152 648).overlay_view.width = 1) ∧
    (on_resize example_state 1152 648).overlay_menu.height = 648 ∧
    (on_resize example_state 1152 648).overlay_view.height = 648 :=
  ⟨by decide, on_resize_pane_sizes example_state 1152 648 (by decide)⟩

/-- Claim C4.  For every 32-bit window width `w` and every height `h`, `on_resize` puts
the menu pane at (0, 0) with width `menu_width` (200) and the view pane at
(`menu_width`, 0) with width `max 1 (w - menu_width)`, the difference being the integer
one: the width is at least 1 and at most `max 1 w`, it is 1 without any subtraction when
`w ≤ menu_width`, and when `w > menu_width` it is the 32-bit difference, which then
equals the exact difference (no wrap-around). -/
theorem on_resize_geometry_no_wrap (st : State) (w h : Nat) (hw : w < 2 ^ 32) :
    (on_resize st w h).overlay_menu.x = 0 ∧
    (on_resize st w h).overlay_menu.y = 0 ∧
    (on_resize st w h).overlay_menu.width = 200 ∧
    (on_resize st w h).overlay_view.x = 200 ∧
    (on_resize st w h).overlay_view.y = 0 ∧
    ((on_resize st w h).overlay_view.width : Int) = max 1 ((w : Int) - 200) ∧
    1 ≤ (on_resize st w h).overlay_view.width ∧
    (on_resize st w h).overlay_view.width ≤ max 1 w ∧
    (on_resize st w h).overlay_view.width =
      (if w ≤ menu_width then 1 else u32_sub w menu_width) ∧
    (menu_width < w → u32_sub w menu_width + menu_width = w) := by
  have hm : menu_width = 200 := rfl
  have hv : (on_resize st w h).overlay_view.width = view_width w := rfl
  refine ⟨rfl, rfl, rfl, rfl, rfl, ?_, ?_, ?_, rfl, ?_⟩
  · rw [hv]
    by_cases hle : w ≤ menu_width
    · rw [view_width_small w hle]
      rw [hm] at hle
      omega
    · rw [view_width_large w (by omega) hw, hm]
      rw [hm] at hle
      omega
  · rw [hv]
    by_cases hle : w ≤ menu_width
    · rw [view_width_small w hle]
    · rw [view_width_large w (by omega) hw, hm]
      rw [hm] at hle
      omega
  · rw [hv]
    by_cases hle : w ≤ menu_width
    · rw [view_width_small w hle]
      omega
    · rw [view_width_large w (by omega) hw, hm]
      omega
  · intro hlt
    rw [u32_sub_eq w menu_width (le_of_lt hlt) hw]
    omega

/-- A window narrower than the menu, 120 by 90: the view pane is clamped to width 1. -/
theorem on_resize_geometry_no_wrap_witness :
    (120 : Nat) < 2 ^ 32 ∧
    (on_resize example_state 120 90).overlay_menu.width = 200 ∧
    (on_resize example_state 120 90).overlay_view.x = 200 ∧
    ((on_resize example_state 120 90).overlay_view.width : Int) = max 1 (((120 : Nat) : Int) - 200) ∧
    (on_resize example_state 120 90).overlay_view.width = 1 :=
  ⟨by decide,
   (on_resize_geometry_no_wrap example_state 120 90 (by decide)).2.2.1,
   (on_resize_geometry_no_wrap example_state 120 90 (by decide)).2.2.2.1,
   (on_resize_geometry_no_wrap example_state 120 90 (by decide)).2.2.2.2.2.1,
   by decide⟩

/-! ## `get_view` and `set_view` -/

theorem starts_with_append (a rest : WString) : starts_with (a ++ rest) a = true := by
  induction a with
  | nil => cases rest <;> rfl
  | cons y ys ih => simp [starts_with, ih]

theorem starts_with_split (p a : WString) (h : starts_with p a = true) :
    p = a ++ p.drop a.length := by
  induction a generalizing p with
  | nil => simp
  | cons y ys ih =>
    cases p with
    | nil => simp [starts_with] at h
    | cons x xs =>
      simp only [starts_with, Bool.and_eq_true, beq_iff_eq] at h
      have h2 := ih xs h.2
      simp only [List.length_cons, List.drop_succ_cons, List.cons_append]
      rw [h.1, ← h2]

theorem assets_path_length_pos (env : Env) : 0 < (assets_path env).length := by
  have h : (wstr "file:///").length = 8 := by decide
  simp [assets_path, h]

theorem append_ne_self (a u : WString) (ha : 0 < a.length) : a ++ u ≠ u := by
  intro h
  have hl := congrArg List.length h
  rw [List.length_append] at hl
  omega

theorem set_view_string (env : Env) (st : State) (s : WString) (rest : List JSValue) :
    set_view env st (JSValue.string s :: rest) =
      Except.ok { st with overlay_view := st.overlay_view.LoadURL (assets_path env ++ s) } := by
  simp [set_view, fassert, set_view_check, JSValue.IsString]

theorem get_view_eq (env : Env) (st : State) :
    get_view env st =
      some (JSValue.string
        (if starts_with st.overlay_view.url (assets_path env) then
          st.overlay_view.url.drop (assets_path env).length
        else st.overlay_view.url)) := by
  unfold get_view
  by_cases h : starts_with st.overlay_view.url (assets_path env) = true
  · have hlen : (assets_path env).length ≤ st.overlay_view.url.length := by
      have h1 := congrArg List.length (starts_with_split _ _ h)
      simp at h1
      omega
    simp [h, substr, hlen]
  · simp [h]

/-- Claim C5, as stated, fails when the view pane shows a page outside the assets folder:
with the view at `https://example.org/`, `get_view` returns that URL unchanged and
`set_view` then navigates to `assets_path` followed by it, a different URL. -/
theorem round_trip_leaves_foreign_url :
    starts_with wandering_state.overlay_view.url (assets_path example_env) = false ∧
    get_view example_env wandering_state = some (JSValue.string (wstr "https://example.org/")) ∧
    set_view_of_get_view example_env wandering_state =
      some (Except.ok { wandering_state with
        overlay_view := wandering_state.overlay_view.LoadURL
          (wstr "file:///C:/sandbox/assets/https://example.org/") }) ∧
    wstr "file:///C:/sandbox/assets/https://example.org/" ≠ wandering_state.overlay_view.url :=
  ⟨by decide, rfl, rfl, by decide⟩

/-- Claim C5, amended.  In every state, `get_view` returns a string and `set_view` applied
to it does not abort and navigates the view pane to `assets_path` followed by that string;
the target equals the URL `u` the view pane had exactly when `u` starts with
`assets_path`.  (For any other `u` the target is `assets_path ++ u`.) -/
theorem round_trip_iff_under_assets (env : Env) (st : State) :
    ∃ p st1, get_view env st = some (JSValue.string p) ∧
      set_view_of_get_view env st = some (Except.ok st1) ∧
      st1 = { st with overlay_view := st.overlay_view.LoadURL (assets_path env ++ p) } ∧
      st1.overlay_view.url = assets_path env ++ p ∧
      (starts_with st.overlay_view.url (assets_path env) = false → p = st.overlay_view.url) ∧
      (st1.overlay_view.url = st.overlay_view.url ↔
        starts_with st.overlay_view.url (assets_path env) = true) := by
  refine ⟨_, _, get_view_eq env st, ?_, rfl, rfl, ?_, ?_⟩
  · simp only [set_view_of_get_view, get_view_eq, Option.map_some', set_view_string]
  · intro h
    simp [h]
  · show assets_path env ++ _ = st.overlay_view.url ↔ _
    by_cases h : starts_with st.overlay_view.url (assets_path env) = true
    · simp only [h, if_true, iff_true]
      exact (starts_with_split _ _ h).symm
    · simp only [h, if_false, iff_false, Bool.false_eq_true]
      exact append_ne_self _ _ (assets_path_length_pos env)

/-- Claim C6.  The callable `set_view` aborts exactly when it is called with no argument
or with a first argument that is not a string; an abort happens in the state the call
started from (the view pane has not navigated); and whenever the first argument is a
string `s`, whatever follows it, the call returns with the view pane navigated to
`assets_path ++ s` (its URL is then that text) and nothing else changed. -/
theorem set_view_aborts_iff (env : Env) (st : State) (args : List JSValue) :
    ((∃ aborted, set_view env st args = Except.error aborted) ↔
      (args = [] ∨ ∃ a rest, args = a :: rest ∧ a.IsString = false)) ∧
    (∀ aborted, set_view env st args = Except.error aborted → aborted = st) ∧
    (∀ s rest, args = JSValue.string s :: rest →
      set_view env st args =
        Except.ok { st with overlay_view := st.overlay_view.LoadURL (assets_path env ++ s) }) ∧
    ((∃ a rest, args = a :: rest ∧ a.IsString = true) →
      ∃ s rest, args = JSValue.string s :: rest) ∧
    (∀ s rest, args = JSValue.string s :: rest →
      ∃ st1, set_view env st args = Except.ok st1 ∧
        st1.overlay_view.url = assets_path env ++ s ∧
        st1.overlay_view.reloads = st.overlay_view.reloads ∧
        st1.overlay_menu = st.overlay_menu ∧
        st1.store = st.store) := by
  refine ⟨?_, ?_, ?_, ?_, ?_⟩
  · cases args with
    | nil => simp [set_view, fassert, set_view_check]
    | cons a rest => cases a <;> simp [set_view, fassert, set_view_check, JSValue.IsString]
  · intro aborted h
    cases args with
    | nil =>
      simp [set_view, fassert, set_view_check] at h
      exact h.symm
    | cons a rest =>
      cases a <;> simp [set_view, fassert, set_view_check, JSValue.IsString] at h <;>
        exact h.symm
  · intro s rest h
    rw [h]
    exact set_view_string env st s rest
  · rintro ⟨a, rest, h, hs⟩
    cases a <;> simp [JSValue.IsString] at hs
    exact ⟨_, _, h⟩
  · intro s rest h
    rw [h]
    exact ⟨_, set_view_string env st s rest, rfl, rfl, rfl, rfl⟩

/-! ## The callable `load` -/

/-- Claim C7.  The callable `load` returns the very boolean `load_routine` reports on the
path the dialogue returned; the store afterwards is the one `load_routine` left; the view
pane's reload count goes up by one when that boolean is `true` and is untouched when it is
`false`; the menu pane is never touched.  In particular, when the user cancels the
dialogue and the load of the empty path fails, the callable returns `false` and the
routine, the display name and both panes are what they were. -/
theorem menu_load_reloads_iff_loaded (env : Env) (st : State) :
    (menu_load env st).1 =
      JSValue.boolean (load_routine env st.store (pop_file_dialogue env vtil_filter st.trace).1).1 ∧
    (menu_load env st).2.store =
      (load_routine env st.store (pop_file_dialogue env vtil_filter st.trace).1).2 ∧
    (menu_load env st).2.overlay_view.reloads =
      st.overlay_view.reloads +
        (if (load_routine env st.store (pop_file_dialogue env vtil_filter st.trace).1).1
          then 1 else 0) ∧
    (menu_load env st).2.overlay_view =
      (if (load_routine env st.store (pop_file_dialogue env vtil_filter st.trace).1).1
        then st.overlay_view.Reload else st.overlay_view) ∧
    (menu_load env st).2.overlay_menu = st.overlay_menu ∧
    (env.GetOpenFileNameW vtil_filter = none → env.deserialize (env.ifstream []) = none →
      (menu_load env st).1 = JSValue.boolean false ∧
      (menu_load env st).2.store = st.store ∧
      (menu_load env st).2.overlay_view = st.overlay_view ∧
      (menu_load env st).2.overlay_menu = st.overlay_menu) := by
  have key : ∀ b : Bool, b = (load_routine env st.store
      (pop_file_dialogue env vtil_filter st.trace).1).1 →
      (menu_load env st).1 = JSValue.boolean b ∧
      (menu_load env st).2.store =
        (load_routine env st.store (pop_file_dialogue env vtil_filter st.trace).1).2 ∧
      (menu_load env st).2.overlay_view =
        (if b then st.overlay_view.Reload else st.overlay_view) ∧
      (menu_load env st).2.overlay_menu = st.overlay_menu := by
    intro b hb
    cases b <;> simp [menu_load, ← hb]
  obtain ⟨h1, h2, h3, h4⟩ := key _ rfl
  refine ⟨h1, h2, ?_, h3, h4, ?_⟩
  · rw [h3]
    cases (load_routine env st.store (pop_file_dialogue env vtil_filter st.trace).1).1 <;>
      simp [Pane.Reload]
  · intro hcancel hfail
    have hp : (pop_file_dialogue env vtil_filter st.trace).1 = [] := by
      simp [pop_file_dialogue, hcancel]
    have hl : load_routine env st.store [] = (false, st.store) := by
      rw [load_routine_eq, hfail]
    rw [hp, hl] at h1 h2 h3
    exact ⟨h1, h2, by simpa using h3, h4⟩

/-- The user cancels the dialogue while `old.vtil` is resident: `load` returns `false`,
and the store and both panes are untouched. -/
theorem menu_load_cancelled_witness :
    example_env.GetOpenFileNameW vtil_filter = none ∧
    example_env.deserialize (example_env.ifstream []) = none ∧
    (menu_load example_env example_state).1 = JSValue.boolean false ∧
    (menu_load example_env example_state).2.store = example_store ∧
    (menu_load example_env example_state).2.overlay_view = example_state.overlay_view ∧
    (menu_load example_env example_state).2.overlay_menu = example_state.overlay_menu :=
  ⟨by decide, by decide,
   (menu_load_reloads_iff_loaded example_env example_state).2.2.2.2.2 (by decide) (by decide)⟩

/-! ## Script objects -/

theorem get_set_self (o : JSObject) (k : String) (v : JSValue) :
    (o.set k v).get k = some v := by
  induction o with
  | nil => simp [JSObject.set, JSObject.get]
  | cons e rest ih =>
    obtain ⟨k0, v0⟩ := e
    by_cases h : k0 = k
    · simp [JSObject.set, JSObject.get, h]
    · simp [JSObject.set, JSObject.get, h, ih]

/-- A load, failed or not, never leaves the store without a routine once it has one. -/
theorem load_routine_keeps_resident (env : Env) (store : RoutineStore) (path : WString)
    (h : store.routine.isSome = true) :
    (load_routine env store path).2.routine.isSome = true := by
  rw [load_routine_eq]
  cases env.deserialize (env.ifstream path) with
  | none => exact h
  | some output => rfl

/-- When `WinMain` gets as far as creating the panes, a routine is resident and the panes
are the two views handed out by the toolkit. -/
theorem WinMain_started_has_routine (env : Env) (lpCmdLine : List Nat) (st : State)
    (h : (WinMain env lpCmdLine).state = some st) :
    st.store.routine.isSome = true ∧
    st.overlay_menu.view_ptr = env.menu_view_ptr ∧
    st.overlay_view.view_ptr = env.view_view_ptr := by
  simp only [WinMain] at h
  generalize (if (List.map widen lpCmdLine).isEmpty = true
    then pop_file_dialogue env vtil_filter [] else (List.map widen lpCmdLine, [])) = picked at h
  cases hl : (load_routine env initial_store picked.1).1 with
  | false => simp [hl] at h
  | true =>
    simp only [hl, Bool.not_true, Bool.false_eq_true, if_false, Option.some.injEq] at h
    subst h
    refine ⟨?_, rfl, rfl⟩
    rw [load_routine_fst] at hl
    show (load_routine env initial_store picked.1).2.routine.isSome = true
    rw [load_routine_eq]
    revert hl
    cases env.deserialize (env.ifstream picked.1) with
    | none => simp
    | some output => intro _; rfl

/-- The callable `load` keeps a routine resident. -/
theorem menu_load_keeps_resident (env : Env) (st : State)
    (h : st.store.routine.isSome = true) :
    (menu_load env st).2.store.routine.isSome = true := by
  have h2 : (menu_load env st).2.store =
      (load_routine env st.store (pop_file_dialogue env vtil_filter st.trace).1).2 := by
    cases hl : (load_routine env st.store (pop_file_dialogue env vtil_filter st.trace).1).1 <;>
      simp [menu_load, hl]
  rw [h2]
  exact load_routine_keeps_resident env st.store _ h

/-! ## The url-change listener -/

/-- Claim C9.  With a routine resident and the two panes distinct, a url-change event from
either pane makes `on_change_url` build an object from scratch (the previous global object
plays no part in it) and install it as the global binding `vtil`; the object has
`file_name` equal to the current display name; fired by the menu pane it has, besides
`file_name`, exactly `run`, `load`, `reload`, `get_view`, `set_view`; fired by the view
pane it has, besides `file_name`, exactly `ins`, `blocks`, `entry_point`. -/
theorem on_change_url_installs_pane_api (env : Env) (st : State) (view : Nat)
    (r : vtil.routine) (hr : st.store.routine = some r)
    (hpanes : st.overlay_menu.view_ptr ≠ st.overlay_view.view_ptr)
    (hfired : view = st.overlay_menu.view_ptr ∨ view = st.overlay_view.view_ptr) :
    ∃ vtil_object,
      build_vtil_object env st view = some vtil_object ∧
      (∀ g, build_vtil_object env { st with global_object := g } view = some vtil_object) ∧
      on_change_url env st view =
        some { st with
          global_object := st.global_object.set "vtil" (JSValue.object vtil_object) } ∧
      (st.global_object.set "vtil" (JSValue.object vtil_object)).get "vtil"
        = some (JSValue.object vtil_object) ∧
      vtil_object.get "file_name" = some (JSValue.string st.store.file_name) ∧
      (view = st.overlay_menu.view_ptr →
        vtil_object.keys = ["file_name", "run", "load", "reload", "get_view", "set_view"] ∧
        vtil_object.get "run" = some (JSValue.callback MenuCallback.run) ∧
        vtil_object.get "load" = some (JSValue.callback MenuCallback.load) ∧
        vtil_object.get "reload" = some (JSValue.callback MenuCallback.reload) ∧
        vtil_object.get "get_view" = some (JSValue.callback MenuCallback.get_view) ∧
        vtil_object.get "set_view" = some (JSValue.callback MenuCallback.set_view) ∧
        vtil_object.get "ins" = none ∧ vtil_object.get "blocks" = none ∧
        vtil_object.get "entry_point" = none) ∧
      (view = st.overlay_view.view_ptr →
        vtil_object.keys = ["file_name", "ins", "blocks", "entry_point"] ∧
        vtil_object.get "ins" = some (JSValue.object (export_instruction_list env)) ∧
        vtil_object.get "blocks" = some (JSValue.object (export_block_map env r)) ∧
        vtil_object.get "entry_point" = some (env.vip_as_js r.entry_point.entry_vip) ∧
        vtil_object.get "run" = none ∧ vtil_object.get "load" = none ∧
        vtil_object.get "reload" = none ∧ vtil_object.get "get_view" = none ∧
        vtil_object.get "set_view" = none) := by
  rcases hfired with hm | hv
  · have hb : ∀ g, build_vtil_object env { st with global_object := g } view =
        some (export_menu_api
          (JSObject.set [] "file_name" (JSValue.string st.store.file_name))) := by
      intro g
      simp [build_vtil_object, hm]
    have hb0 : build_vtil_object env st view =
        some (export_menu_api
          (JSObject.set [] "file_name" (JSValue.string st.store.file_name))) := hb st.global_object
    refine ⟨_, hb0, hb, ?_, get_set_self _ _ _, rfl, ?_, ?_⟩
    · simp [on_change_url, hb0]
    · intro _
      exact ⟨rfl, rfl, rfl, rfl, rfl, rfl, rfl, rfl, rfl⟩
    · intro hv
      exact absurd (hm.symm.trans hv) hpanes
  · have hne : view ≠ st.overlay_menu.view_ptr := by
      intro hm
      exact hpanes (hm.symm.trans hv)
    have hb : ∀ g, build_vtil_object env { st with global_object := g } view =
        some (export_view_api env r
          (JSObject.set [] "file_name" (JSValue.string st.store.file_name))) := by
      intro g
      simp [build_vtil_object, hv, hr, Ne.symm hpanes]
    have hb0 : build_vtil_object env st view =
        some (export_view_api env r
          (JSObject.set [] "file_name" (JSValue.string st.store.file_name))) := hb st.global_object
    refine ⟨_, hb0, hb, ?_, get_set_self _ _ _, rfl, ?_, ?_⟩
    · simp [on_change_url, hb0]
    · intro hm
      exact absurd hm hne
    · intro _
      exact ⟨rfl, rfl, rfl, rfl, rfl, rfl, rfl, rfl, rfl⟩

/-- The running example: the menu pane (view 1) gets the five callables, the view pane
(view 2) gets the three data properties, both get `file_name` as `old.vtil`. -/
theorem on_change_url_installs_pane_api_witness :
    (∃ vtil_object,
      build_vtil_object example_env example_state 1 = some vtil_object ∧
      vtil_object.get "file_name" = some (JSValue.string (wstr "old.vtil")) ∧
      vtil_object.keys = ["file_name", "run", "load", "reload", "get_view", "set_view"]) ∧
    (∃ vtil_object,
      build_vtil_object example_env example_state 2 = some vtil_object ∧
      vtil_object.get "file_name" = some (JSValue.string (wstr "old.vtil")) ∧
      vtil_object.keys = ["file_name", "ins", "blocks", "entry_point"]) := by
  obtain ⟨o1, h1, _, _, _, hf1, hm1, _⟩ :=
    on_change_url_installs_pane_api example_env example_state 1 resident_routine rfl
      (by decide) (Or.inl rfl)
  obtain ⟨o2, h2, _, _, _, hf2, _, hv2⟩ :=
    on_change_url_installs_pane_api example_env example_state 2 resident_routine rfl
      (by decide) (Or.inr rfl)
  exact ⟨⟨o1, h1, hf1, (hm1 rfl).1⟩, ⟨o2, h2, hf2, (hv2 rfl).1⟩⟩

/-! ## Process entry -/

end VTILSandbox
